import Mathlib

/-!
# Verification of the `unified-theme` runtime

Shallow embedding of the browser runtime of the `unified-theme` package:
the `UnifiedTheme` class (src/src/utilities/theme-manager.js) and the
`AnimationUtils` class (src/utilities/animations.js).  DOM state touched by
the code is made explicit (document attribute/class, localStorage, dropdown
and tab/panel element lists, notification containers); timers are recorded
as data (delay plus a description of the deferred mutation) rather than
executed, matching the single-threaded fire-and-forget structure of the
source.
-/

namespace UnifiedTheme

/-- State observable by the theme-related methods of `UnifiedTheme`:
the in-memory `currentTheme` field, the `data-theme` attribute and `dark`
class on `document.documentElement`, the localStorage contents, and the
log of `themeChanged` event payloads (`detail.theme`) dispatched so far. -/
structure ThemeState where
  currentTheme : String
  docDataTheme : Option String
  docDarkClass : Bool
  storage : String → Option String
  events : List String

/-- Fresh page state as the constructor leaves it before `init` runs:
`this.currentTheme = 'light'`, document unmarked, no events dispatched;
the storage contents are whatever the browser profile holds. -/
def initialState (storage : String → Option String) : ThemeState :=
  { currentTheme := "light"
    docDataTheme := none
    docDarkClass := false
    storage := storage
    events := [] }

/-- `setTheme(theme)` (theme-manager.js lines 59-70): records the theme,
sets the `data-theme` attribute, toggles the `dark` class with force
`theme === 'dark'`, persists under the configured storage key, and
dispatches a `themeChanged` event carrying `{ theme }`. -/
def setTheme (storageKey : String) (theme : String) (st : ThemeState) : ThemeState :=
  { st with
    currentTheme := theme
    docDataTheme := some theme
    docDarkClass := (theme == "dark")
    storage := fun k => if k = storageKey then some theme else st.storage k
    events := st.events ++ [theme] }

/-- `toggleTheme()` (lines 75-78): flips to `'dark'` exactly when the
current theme is `'light'`, and applies the result via `setTheme`. -/
def toggleTheme (storageKey : String) (st : ThemeState) : ThemeState :=
  setTheme storageKey (if st.currentTheme == "light" then "dark" else "light") st

/-- `getTheme()` (lines 83-85). -/
def getTheme (st : ThemeState) : String :=
  st.currentTheme

/-- `initDarkMode()` (lines 34-53), parameterised by the
`autoDetectPreference` option and the value of the
`(prefers-color-scheme: dark)` media query.  A saved value is used only
when truthy (the empty string is falsy in JS); otherwise, when
auto-detection is on, the system preference decides.  The change-listener
registration on line 46 reacts to later media-query events and performs no
immediate state change. -/
def initDarkMode (storageKey : String) (autoDetectPreference : Bool)
    (prefersDark : Bool) (st : ThemeState) : ThemeState :=
  match st.storage storageKey with
  | some savedTheme =>
      if savedTheme == "" then
        if autoDetectPreference then
          setTheme storageKey (if prefersDark then "dark" else "light") st
        else st
      else setTheme storageKey savedTheme st
  | none =>
      if autoDetectPreference then
        setTheme storageKey (if prefersDark then "dark" else "light") st
      else st

/-- A public theme operation: `setTheme` with an arbitrary argument, or
`toggleTheme`. -/
inductive ThemeOp where
  | set (t : String)
  | toggle
deriving DecidableEq

/-- Run one public theme operation. -/
def applyOp (storageKey : String) (st : ThemeState) : ThemeOp → ThemeState
  | .set t => setTheme storageKey t st
  | .toggle => toggleTheme storageKey st

/-- Run a sequence of public theme operations left to right. -/
def runOps (storageKey : String) (ops : List ThemeOp) (st : ThemeState) : ThemeState :=
  ops.foldl (applyOp storageKey) st

end UnifiedTheme

open UnifiedTheme

/-- C1: after `setTheme("dark")` then `setTheme("light")` (from any prior
state), the document marker reflects `"light"` (`data-theme` is `"light"`,
the `dark` class is absent), storage under the configured key holds
`"light"`, `getTheme()` returns `"light"`, and the two calls dispatched
`themeChanged` events carrying `"dark"` and then `"light"`, each with the
theme just set. -/
theorem setTheme_dark_then_light (storageKey : String) (st : ThemeState) :
    (setTheme storageKey "light" (setTheme storageKey "dark" st)).docDataTheme = some "light" ∧
    (setTheme storageKey "light" (setTheme storageKey "dark" st)).docDarkClass = false ∧
    (setTheme storageKey "light" (setTheme storageKey "dark" st)).storage storageKey = some "light" ∧
    getTheme (setTheme storageKey "light" (setTheme storageKey "dark" st)) = "light" ∧
    (setTheme storageKey "dark" st).events = st.events ++ ["dark"] ∧
    (setTheme storageKey "light" (setTheme storageKey "dark" st)).events =
      st.events ++ ["dark", "light"] := by
  refine ⟨rfl, rfl, ?_, rfl, rfl, by simp [setTheme]⟩
  simp [setTheme, getTheme]

/-- C2: on theme states (the current theme is one of the two enumerated
values `"light"`/`"dark"`, as the spec's data model defines theme state),
`toggleTheme` is an involution: toggling twice restores the theme observed
by `getTheme` before the first toggle. -/
theorem toggleTheme_involution (storageKey : String) (st : ThemeState)
    (h : getTheme st = "light" ∨ getTheme st = "dark") :
    getTheme (toggleTheme storageKey (toggleTheme storageKey st)) = getTheme st := by
  rcases h with h | h <;>
    simp [toggleTheme, setTheme, getTheme] at * <;> simp [h]

/-- Witness for C2 at a concrete state whose theme is `"light"`. -/
theorem toggleTheme_involution_witness :
    getTheme (toggleTheme "unified-theme-mode"
        (toggleTheme "unified-theme-mode" (initialState fun _ => none))) =
      getTheme (initialState fun _ => none) :=
  toggleTheme_involution "unified-theme-mode" (initialState fun _ => none) (Or.inl rfl)

/-- C3 counterexample: `setTheme` stores its argument verbatim, so a single
public operation `setTheme("blue")` leaves `getTheme()` returning
`"blue"`, which is neither `"light"` nor `"dark"`.  The claim that after
`setTheme` with any argument `getTheme()` is `"light"` or `"dark"` is
false on the code. -/
theorem theme_enum_counterexample :
    getTheme (setTheme "unified-theme-mode" "blue" (initialState fun _ => none)) = "blue" ∧
    ¬ (getTheme (setTheme "unified-theme-mode" "blue" (initialState fun _ => none)) = "light" ∨
       getTheme (setTheme "unified-theme-mode" "blue" (initialState fun _ => none)) = "dark") := by
  constructor
  · rfl
  · intro h
    rcases h with h | h <;> simp [setTheme, getTheme, initialState] at h

/-- C3 amended: starting from the constructor state and running
`initDarkMode`, provided any stored value under the key is empty,
`"light"` or `"dark"`, and every subsequent `setTheme` argument in the
operation sequence is `"light"` or `"dark"`, `getTheme()` always returns
`"light"` or `"dark"`; moreover the theme state is mutated only through
the explicit setter: `toggleTheme` factors through `setTheme`. -/
theorem theme_enum_invariant (storageKey : String) (autoDetect prefersDark : Bool)
    (storage : String → Option String) (ops : List ThemeOp)
    (hsaved : ∀ s, storage storageKey = some s → s = "" ∨ s = "light" ∨ s = "dark")
    (hops : ∀ t, ThemeOp.set t ∈ ops → t = "light" ∨ t = "dark") :
    (getTheme (runOps storageKey ops
        (initDarkMode storageKey autoDetect prefersDark (initialState storage))) = "light" ∨
     getTheme (runOps storageKey ops
        (initDarkMode storageKey autoDetect prefersDark (initialState storage))) = "dark") ∧
    (∀ st : ThemeState, toggleTheme storageKey st =
      setTheme storageKey (if st.currentTheme == "light" then "dark" else "light") st) := by
  constructor
  · have hbase :
        getTheme (initDarkMode storageKey autoDetect prefersDark (initialState storage)) = "light" ∨
        getTheme (initDarkMode storageKey autoDetect prefersDark (initialState storage)) = "dark" := by
      unfold initDarkMode
      cases hm : storage storageKey with
      | none =>
          simp only [initialState] at *
          rw [hm]
          cases autoDetect <;> cases prefersDark <;>
            simp [setTheme, getTheme, initialState]
      | some s =>
          rcases hsaved s hm with hs | hs | hs <;> subst hs <;>
            simp only [initialState] at * <;> rw [hm] <;>
            cases autoDetect <;> cases prefersDark <;>
              simp [setTheme, getTheme, initialState]
    revert hbase
    generalize initDarkMode storageKey autoDetect prefersDark (initialState storage) = st
    induction ops generalizing st with
    | nil => intro h; exact h
    | cons op rest ih =>
        intro hst
        have hrest : ∀ t, ThemeOp.set t ∈ rest → t = "light" ∨ t = "dark" := by
          intro t ht; exact hops t (List.mem_cons_of_mem _ ht)
        have hops2 := hops
        cases op with
        | set t =>
            have hT := hops t (List.mem_cons_self _ _)
            have : getTheme (applyOp storageKey st (.set t)) = "light" ∨
                   getTheme (applyOp storageKey st (.set t)) = "dark" := by
              rcases hT with h | h <;> subst h <;> simp [applyOp, setTheme, getTheme]
            exact ih hrest _ this
        | toggle =>
            have : getTheme (applyOp storageKey st .toggle) = "light" ∨
                   getTheme (applyOp storageKey st .toggle) = "dark" := by
              by_cases h : st.currentTheme = "light" <;>
                simp [applyOp, toggleTheme, setTheme, getTheme, h]
            exact ih hrest _ this
  · intro st
    rfl

/-- Witness for C3 amended: a concrete run (system prefers dark, empty
storage, then a `setTheme("light")` and two toggles) ends in an enumerated
theme. -/
theorem theme_enum_invariant_witness :
    (getTheme (runOps "unified-theme-mode" [ThemeOp.set "light", ThemeOp.toggle, ThemeOp.toggle]
        (initDarkMode "unified-theme-mode" true true (initialState fun _ => none))) = "light" ∨
     getTheme (runOps "unified-theme-mode" [ThemeOp.set "light", ThemeOp.toggle, ThemeOp.toggle]
        (initDarkMode "unified-theme-mode" true true (initialState fun _ => none))) = "dark") ∧
    (∀ st : ThemeState, toggleTheme "unified-theme-mode" st =
      setTheme "unified-theme-mode" (if st.currentTheme == "light" then "dark" else "light") st) :=
  theme_enum_invariant "unified-theme-mode" true true (fun _ => none)
    [ThemeOp.set "light", ThemeOp.toggle, ThemeOp.toggle]
    (by intro s h; simp at h)
    (by intro t ht; simp at ht; simp [ht])

namespace UnifiedTheme

/-- A `[data-dropdown]` trigger element: its `open` class and its
`aria-expanded` attribute value. -/
structure Dropdown where
  id : String
  openClass : Bool
  ariaExpanded : String
deriving DecidableEq

/-- `closeAllDropdowns()` (theme-manager.js lines 231-238): every element
matching `[data-dropdown].open` loses the `open` class and gets
`aria-expanded="false"`; dropdowns that are already closed are not in the
query result and keep their attribute. -/
def closeAllDropdowns (doc : List Dropdown) : List Dropdown :=
  doc.map fun d =>
    if d.openClass then { d with openClass := false, ariaExpanded := "false" } else d

/-- `toggleDropdown(dropdown)` (lines 216-226) for the trigger at index `i`
of the document's dropdown list: read whether it is open, close all
dropdowns, and re-open (with `aria-expanded="true"`) only when it was not
open before.  An index outside the list corresponds to no clicked element,
so nothing happens. -/
def toggleDropdown (doc : List Dropdown) (i : Nat) : List Dropdown :=
  match doc.get? i with
  | none => doc
  | some d =>
      let isOpen := d.openClass
      let doc' := closeAllDropdowns doc
      if isOpen then doc'
      else doc'.set i { d with openClass := true, ariaExpanded := "true" }

/-- Number of dropdowns currently carrying the `open` class. -/
def openCount (doc : List Dropdown) : Nat :=
  (doc.filter (·.openClass)).length

/-- Whether the dropdown at index `k` is open (`false` off the list). -/
def openAt (doc : List Dropdown) (k : Nat) : Bool :=
  (doc.getD k ⟨"", false, ""⟩).openClass

theorem openAt_closeAll (doc : List Dropdown) (k : Nat) :
    openAt (closeAllDropdowns doc) k = false := by
  induction doc generalizing k with
  | nil => simp [openAt, closeAllDropdowns]
  | cons d rest ih =>
      cases k with
      | zero =>
          by_cases h : d.openClass <;>
            simp [openAt, closeAllDropdowns, List.getD, h]
      | succ n =>
          simpa [openAt, closeAllDropdowns, List.getD] using ih n

theorem openCount_closeAll (doc : List Dropdown) :
    openCount (closeAllDropdowns doc) = 0 := by
  induction doc with
  | nil => rfl
  | cons d rest ih =>
      by_cases h : d.openClass <;>
        simp [openCount, closeAllDropdowns, List.filter, h] at * <;>
        assumption

theorem length_closeAll (doc : List Dropdown) :
    (closeAllDropdowns doc).length = doc.length := by
  simp [closeAllDropdowns]

theorem openAt_set_self (doc : List Dropdown) (i : Nat) (x : Dropdown)
    (h : i < doc.length) : openAt (doc.set i x) i = x.openClass := by
  induction doc generalizing i with
  | nil => simp at h
  | cons d rest ih =>
      cases i with
      | zero => simp [openAt, List.getD]
      | succ n =>
          simp only [List.set]
          simpa [openAt, List.getD] using ih n (by simpa using h)

theorem openAt_set_ne (doc : List Dropdown) (i k : Nat) (x : Dropdown)
    (h : k ≠ i) : openAt (doc.set i x) k = openAt doc k := by
  induction doc generalizing i k with
  | nil => simp [openAt, List.set]
  | cons d rest ih =>
      cases i with
      | zero =>
          cases k with
          | zero => exact absurd rfl h
          | succ n => simp [openAt, List.getD, List.set]
      | succ m =>
          cases k with
          | zero => simp [openAt, List.getD, List.set]
          | succ n =>
              simp only [List.set]
              simpa [openAt, List.getD] using ih m n (fun hc => h (by simp [hc]))

theorem openCount_cons (d : Dropdown) (rest : List Dropdown) :
    openCount (d :: rest) = (if d.openClass then 1 else 0) + openCount rest := by
  by_cases h : d.openClass
  · simp [openCount, List.filter_cons, h]
    omega
  · simp [openCount, List.filter_cons, h]

theorem openCount_eq_zero (doc : List Dropdown)
    (h : ∀ d ∈ doc, d.openClass = false) : openCount doc = 0 := by
  induction doc with
  | nil => rfl
  | cons d rest ih =>
      rw [openCount_cons, ih (fun a ha => h a (List.mem_cons_of_mem _ ha)),
        h d (List.mem_cons_self _ _)]
      simp

theorem openCount_le_one_of_all_closed_set (doc : List Dropdown) (i : Nat) (x : Dropdown)
    (h : ∀ d ∈ doc, d.openClass = false) : openCount (doc.set i x) ≤ 1 := by
  induction doc generalizing i with
  | nil => simp [openCount, List.set]
  | cons d rest ih =>
      cases i with
      | zero =>
          have hrest : openCount rest = 0 :=
            openCount_eq_zero rest (fun a ha => h a (List.mem_cons_of_mem _ ha))
          rw [List.set_cons_zero, openCount_cons, hrest]
          by_cases hx : x.openClass <;> simp [hx]
      | succ n =>
          rw [List.set_cons_succ, openCount_cons, h d (List.mem_cons_self _ _)]
          simpa using ih n (fun a ha => h a (List.mem_cons_of_mem _ ha))

theorem mem_closeAll_closed (doc : List Dropdown) :
    ∀ d ∈ closeAllDropdowns doc, d.openClass = false := by
  induction doc with
  | nil => simp [closeAllDropdowns]
  | cons a rest ih =>
      intro d hd
      simp only [closeAllDropdowns, List.map_cons, List.mem_cons] at hd
      rcases hd with hd | hd
      · subst hd
        by_cases h : a.openClass <;> simp [h]
      · exact ih d (by simpa [closeAllDropdowns] using hd)

theorem openAt_of_get? (doc : List Dropdown) (i : Nat) (d : Dropdown)
    (h : doc.get? i = some d) : openAt doc i = d.openClass := by
  induction doc generalizing i with
  | nil => simp at h
  | cons a rest ih =>
      cases i with
      | zero => simp_all [openAt, List.getD]
      | succ n =>
          simp only [List.get?] at h
          simpa [openAt, List.getD] using ih n h

theorem length_toggleDropdown (doc : List Dropdown) (i : Nat) :
    (toggleDropdown doc i).length = doc.length := by
  unfold toggleDropdown
  cases h : doc.get? i with
  | none => rfl
  | some d =>
      by_cases ho : d.openClass <;>
        simp [ho, length_closeAll]

theorem toggleDropdown_eq_of_closed (doc : List Dropdown) (i : Nat) (d : Dropdown)
    (hd : doc.get? i = some d) (hdo : d.openClass = false) :
    toggleDropdown doc i =
      (closeAllDropdowns doc).set i { d with openClass := true, ariaExpanded := "true" } := by
  unfold toggleDropdown
  rw [hd]
  simp [hdo]

theorem toggleDropdown_eq_of_open (doc : List Dropdown) (i : Nat) (d : Dropdown)
    (hd : doc.get? i = some d) (hdo : d.openClass = true) :
    toggleDropdown doc i = closeAllDropdowns doc := by
  unfold toggleDropdown
  rw [hd]
  simp [hdo]

theorem openCount_toggleDropdown_le_one (doc : List Dropdown) (i : Nat)
    (hi : i < doc.length) : openCount (toggleDropdown doc i) ≤ 1 := by
  obtain ⟨d, hd⟩ : ∃ d, doc.get? i = some d :=
    ⟨doc.get ⟨i, hi⟩, List.get?_eq_get hi⟩
  by_cases hdo : d.openClass
  · rw [toggleDropdown_eq_of_open doc i d hd hdo, openCount_closeAll]
    omega
  · rw [toggleDropdown_eq_of_closed doc i d hd (by simpa using hdo)]
    exact openCount_le_one_of_all_closed_set _ i _ (mem_closeAll_closed doc)

end UnifiedTheme

/-- C4: (a) after any click on a dropdown trigger (any index at which a
`[data-dropdown]` element exists, whether it is currently open or closed,
in a document with any number of dropdowns and any reachable combination
of open classes), at most one `[data-dropdown]` element carries the
`open` class once `toggleDropdown` has run; and (b) when dropdown `i` is
closed, clicking it (opening `A`) and then clicking a different existing
dropdown `j` leaves exactly `j` open: every index `k` is open afterwards
iff `k = j` (all others are closed before the selected one is opened). -/
theorem dropdown_at_most_one_open (doc : List UnifiedTheme.Dropdown) (i j : Nat)
    (hi : i < doc.length) :
    UnifiedTheme.openCount (UnifiedTheme.toggleDropdown doc i) ≤ 1 ∧
    (i ≠ j → j < doc.length → UnifiedTheme.openAt doc i = false →
      (∀ k, UnifiedTheme.openAt
        (UnifiedTheme.toggleDropdown (UnifiedTheme.toggleDropdown doc i) j) k = true ↔ k = j)) := by
  constructor
  · exact UnifiedTheme.openCount_toggleDropdown_le_one doc i hi
  · intro hij hj hclosed
    obtain ⟨d, hd⟩ : ∃ d, doc.get? i = some d :=
      ⟨doc.get ⟨i, hi⟩, List.get?_eq_get hi⟩
    have hdo : d.openClass = false := by
      rw [UnifiedTheme.openAt_of_get? doc i d hd] at hclosed
      exact hclosed
    have ht1 := UnifiedTheme.toggleDropdown_eq_of_closed doc i d hd hdo
    have hlen1 : (UnifiedTheme.toggleDropdown doc i).length = doc.length :=
      UnifiedTheme.length_toggleDropdown doc i
    obtain ⟨e, he⟩ : ∃ e, (UnifiedTheme.toggleDropdown doc i).get? j = some e :=
      ⟨(UnifiedTheme.toggleDropdown doc i).get ⟨j, by rw [hlen1]; exact hj⟩,
        List.get?_eq_get (by rw [hlen1]; exact hj)⟩
    have heo : e.openClass = false := by
      have h1 := UnifiedTheme.openAt_of_get? _ j e he
      have h2 : UnifiedTheme.openAt (UnifiedTheme.toggleDropdown doc i) j = false := by
        rw [ht1, UnifiedTheme.openAt_set_ne _ _ _ _ (Ne.symm hij),
          UnifiedTheme.openAt_closeAll]
      rw [h1] at h2
      exact h2
    have ht2 := UnifiedTheme.toggleDropdown_eq_of_closed _ j e he heo
    intro k
    by_cases hk : k = j
    · subst hk
      rw [ht2, UnifiedTheme.openAt_set_self]
      · simp
      · rw [UnifiedTheme.length_closeAll, hlen1]
        exact hj
    · rw [ht2, UnifiedTheme.openAt_set_ne _ _ _ _ hk, UnifiedTheme.openAt_closeAll]
      simp [hk]

/-- Witness for C4: a two-dropdown document, both closed; clicking
dropdown 0 leaves at most one dropdown open, and then clicking dropdown 1
leaves exactly dropdown 1 open. -/
theorem dropdown_at_most_one_open_witness :
    UnifiedTheme.openCount (UnifiedTheme.toggleDropdown
      [⟨"a", false, "false"⟩, ⟨"b", false, "false"⟩] 0) ≤ 1 ∧
    (∀ k, UnifiedTheme.openAt
        (UnifiedTheme.toggleDropdown (UnifiedTheme.toggleDropdown
          [⟨"a", false, "false"⟩, ⟨"b", false, "false"⟩] 0) 1) k = true ↔ k = 1) :=
  ⟨(dropdown_at_most_one_open [⟨"a", false, "false"⟩, ⟨"b", false, "false"⟩] 0 1
      (by decide)).1,
    (dropdown_at_most_one_open [⟨"a", false, "false"⟩, ⟨"b", false, "false"⟩] 0 1
      (by decide)).2 (by decide) (by decide) (by decide)⟩


namespace UnifiedTheme

/-- A `[data-tab]` element: its `data-tab` attribute (the target panel id),
its `active` class, and its `aria-selected` attribute. -/
structure Tab where
  dataTab : String
  active : Bool
  ariaSelected : String
deriving DecidableEq

/-- A `[data-tab-group]` element with the `[data-tab]` elements inside it. -/
structure TabGroup where
  tabs : List Tab
deriving DecidableEq

/-- A `[data-tab-panel]` element: its `id`, its inline `display` style and
its `aria-hidden` attribute. -/
structure Panel where
  id : String
  display : String
  ariaHidden : String
deriving DecidableEq

/-- The parts of the document `switchTab` touches: the tab groups and
every `[data-tab-panel]` element in the document, in document order. -/
structure TabDom where
  groups : List TabGroup
  panels : List Panel
deriving DecidableEq

/-- Lines 266-269: every `[data-tab]` inside the group loses the `active`
class and gets `aria-selected="false"`. -/
def deactivateTabs (tabs : List Tab) : List Tab :=
  tabs.map fun t => { t with active := false, ariaSelected := "false" }

/-- Lines 276-280: every `[data-tab-panel]` in the document (not just the
group) gets `display:none` and `aria-hidden="true"`. -/
def hideAllPanels (panels : List Panel) : List Panel :=
  panels.map fun p => { p with display := "none", ariaHidden := "true" }

/-- Lines 283-287: `document.getElementById(targetId)` resolves to the
first element with that id, which (when found) gets `display:block` and
`aria-hidden="false"`; when no element matches, nothing happens. -/
def showPanel : List Panel → String → List Panel
  | [], _ => []
  | p :: ps, targetId =>
      if p.id = targetId then
        { p with display := "block", ariaHidden := "false" } :: ps
      else p :: showPanel ps targetId

/-- `switchTab(tab)` (theme-manager.js lines 258-288) for the clicked tab
at index `ti` of group `gi`: read the tab's `data-tab` value, deactivate
all tabs in the enclosing group, activate the clicked one, hide all
`[data-tab-panel]` elements document-wide, then show the panel whose id
matches.  Indices outside the document correspond to no clicked element. -/
def switchTab (dom : TabDom) (gi ti : Nat) : TabDom :=
  match dom.groups[gi]? with
  | none => dom
  | some g =>
      match g.tabs[ti]? with
      | none => dom
      | some tab =>
          let targetId := tab.dataTab
          let newTabs := (deactivateTabs g.tabs).set ti
            { tab with active := true, ariaSelected := "true" }
          let newPanels := showPanel (hideAllPanels dom.panels) targetId
          { groups := dom.groups.set gi { g with tabs := newTabs }, panels := newPanels }

/-- Line 262: a clicked `[data-tab]` with no `[data-tab-group]` ancestor
makes `switchTab` return immediately, leaving the document untouched. -/
def switchTabNoGroup (dom : TabDom) : TabDom :=
  dom

/-- Index of the first panel whose id matches (what `getElementById`
resolves to), if any. -/
def findPanelIdx : List Panel → String → Option Nat
  | [], _ => none
  | p :: ps, targetId =>
      if p.id = targetId then some 0 else (findPanelIdx ps targetId).map (· + 1)

theorem hideAllPanels_getElem? (ps : List Panel) (k : Nat) (p : Panel)
    (hp : ps[k]? = some p) :
    (hideAllPanels ps)[k]? = some { p with display := "none", ariaHidden := "true" } := by
  simp [hideAllPanels, hp]

theorem showPanel_hideAll_getElem? (ps : List Panel) (targetId : String) (k : Nat) (p : Panel)
    (hp : ps[k]? = some p) :
    (showPanel (hideAllPanels ps) targetId)[k]? = some (
      if findPanelIdx ps targetId = some k then
        { p with display := "block", ariaHidden := "false" }
      else { p with display := "none", ariaHidden := "true" }) := by
  induction ps generalizing k with
  | nil => simp at hp
  | cons q qs ih =>
      cases k with
      | zero =>
          simp only [List.getElem?_cons_zero, Option.some.injEq] at hp
          subst hp
          by_cases h : q.id = targetId
          · simp [hideAllPanels, showPanel, findPanelIdx, h]
          · simp only [hideAllPanels, List.map_cons, showPanel, h, if_false, findPanelIdx]
            cases hf : findPanelIdx qs targetId <;> simp [hf, h]
      | succ n =>
          simp only [List.getElem?_cons_succ] at hp
          by_cases h : q.id = targetId
          · simp only [hideAllPanels, List.map_cons, showPanel, h, if_true, findPanelIdx,
              List.getElem?_cons_succ]
            rw [show (List.map (fun p => { p with display := "none", ariaHidden := "true" }) qs) =
              hideAllPanels qs from rfl]
            rw [hideAllPanels_getElem? qs n p hp]
            simp
          · simp only [hideAllPanels, List.map_cons, showPanel, h, if_false, findPanelIdx,
              List.getElem?_cons_succ]
            rw [show (List.map (fun p => { p with display := "none", ariaHidden := "true" }) qs) =
              hideAllPanels qs from rfl]
            rw [show showPanel (hideAllPanels qs) targetId =
              (showPanel (hideAllPanels qs) targetId) from rfl]
            have := ih n hp
            cases hf : findPanelIdx qs targetId with
            | none =>
                rw [hf] at this
                simpa using this
            | some m =>
                rw [hf] at this
                by_cases hm : m = n
                · subst hm
                  simp only [if_pos rfl] at this
                  simpa using this
                · rw [if_neg (by simpa using hm)] at this
                  rw [this]
                  simp [hm]

end UnifiedTheme

/-- C5 counterexample: panels outside the clicked tab's group are not left
unaffected.  In a document with one group whose tab targets `"p1"` and a
second, visible panel `"p2"` belonging to no group (or another group),
switching to that tab sets `display:none` / `aria-hidden="true"` on
`"p2"`: the code hides every `[data-tab-panel]` document-wide. -/
theorem switchTab_counterexample :
    (UnifiedTheme.switchTab
        { groups := [⟨[⟨"p1", false, "false"⟩]⟩],
          panels := [⟨"p1", "none", "true"⟩, ⟨"p2", "block", "false"⟩] } 0 0).panels =
      [⟨"p1", "block", "false"⟩, ⟨"p2", "none", "true"⟩] ∧
    ({ groups := [⟨[⟨"p1", false, "false"⟩]⟩],
       panels := [⟨"p1", "none", "true"⟩, ⟨"p2", "block", "false"⟩] } :
        UnifiedTheme.TabDom).panels.getD 1 ⟨"", "", ""⟩ = ⟨"p2", "block", "false"⟩ := by
  constructor <;> rfl

/-- C5 amended: `switchTab` on the tab at index `ti` of group `gi`
deactivates every other tab in that group and activates exactly the
clicked one (`active` class and `aria-selected` accordingly), leaves tabs
in other groups untouched, hides EVERY `[data-tab-panel]` in the document
(`display:none`, `aria-hidden="true"`), and then shows only the first
panel whose id equals the clicked tab's `data-tab` value
(`display:block`, `aria-hidden="false"`). -/
theorem switchTab_spec (dom : UnifiedTheme.TabDom) (gi ti : Nat)
    (g : UnifiedTheme.TabGroup) (tab : UnifiedTheme.Tab)
    (hg : dom.groups[gi]? = some g) (ht : g.tabs[ti]? = some tab) :
    ((UnifiedTheme.switchTab dom gi ti).groups[gi]? =
      some ⟨(UnifiedTheme.deactivateTabs g.tabs).set ti
        { tab with active := true, ariaSelected := "true" }⟩) ∧
    (∀ k (tk : UnifiedTheme.Tab),
      ((UnifiedTheme.deactivateTabs g.tabs).set ti
        { tab with active := true, ariaSelected := "true" })[k]? = some tk →
      (tk.active = true ↔ k = ti) ∧ tk.ariaSelected = (if k = ti then "true" else "false")) ∧
    (∀ g', g' ≠ gi → (UnifiedTheme.switchTab dom gi ti).groups[g']? = dom.groups[g']?) ∧
    (∀ k (p : UnifiedTheme.Panel), dom.panels[k]? = some p →
      (UnifiedTheme.switchTab dom gi ti).panels[k]? = some (
        if UnifiedTheme.findPanelIdx dom.panels tab.dataTab = some k then
          { p with display := "block", ariaHidden := "false" }
        else { p with display := "none", ariaHidden := "true" })) := by
  have hswitch : UnifiedTheme.switchTab dom gi ti =
      { groups := dom.groups.set gi ⟨(UnifiedTheme.deactivateTabs g.tabs).set ti
          { tab with active := true, ariaSelected := "true" }⟩,
        panels := UnifiedTheme.showPanel (UnifiedTheme.hideAllPanels dom.panels) tab.dataTab } := by
    simp only [UnifiedTheme.switchTab, hg, ht]
  have hgi : gi < dom.groups.length := (List.getElem?_eq_some_iff.mp hg).1
  refine ⟨?_, ?_, ?_, ?_⟩
  · rw [hswitch]
    exact List.getElem?_set_self hgi
  · intro k tk htk
    have hti : ti < g.tabs.length := (List.getElem?_eq_some_iff.mp ht).1
    by_cases hk : k = ti
    · subst hk
      rw [List.getElem?_set_self (by simpa [UnifiedTheme.deactivateTabs] using hti)] at htk
      cases htk
      simp
    · rw [List.getElem?_set_ne (fun h => hk h.symm)] at htk
      simp only [UnifiedTheme.deactivateTabs, List.getElem?_map] at htk
      cases hq : g.tabs[k]? with
      | none => rw [hq] at htk; simp at htk
      | some q =>
          rw [hq] at htk
          simp only [Option.map_some', Option.some.injEq] at htk
          rw [← htk]
          simp [hk]
  · intro g' hg'
    rw [hswitch]
    simp [List.getElem?_set_ne (fun h => hg' h.symm)]
  · intro k p hp
    rw [hswitch]
    exact UnifiedTheme.showPanel_hideAll_getElem? dom.panels tab.dataTab k p hp

/-- Witness for C5 amended: a concrete two-group document; switching to
the only tab of group 0 activates it, leaves group 1 untouched, hides the
unrelated panel and shows the targeted one. -/
theorem switchTab_spec_witness :
    ((UnifiedTheme.switchTab
        { groups := [⟨[⟨"p1", false, "false"⟩]⟩, ⟨[⟨"p2", true, "true"⟩]⟩],
          panels := [⟨"p1", "none", "true"⟩, ⟨"p2", "block", "false"⟩] } 0 0).groups[0]? =
      some ⟨(UnifiedTheme.deactivateTabs [⟨"p1", false, "false"⟩]).set 0
        { (⟨"p1", false, "false"⟩ : UnifiedTheme.Tab) with
            active := true, ariaSelected := "true" }⟩) ∧
    (∀ k (tk : UnifiedTheme.Tab),
      ((UnifiedTheme.deactivateTabs [⟨"p1", false, "false"⟩]).set 0
        { (⟨"p1", false, "false"⟩ : UnifiedTheme.Tab) with
            active := true, ariaSelected := "true" })[k]? = some tk →
      (tk.active = true ↔ k = 0) ∧ tk.ariaSelected = (if k = 0 then "true" else "false")) ∧
    (∀ g', g' ≠ 0 → (UnifiedTheme.switchTab
        { groups := [⟨[⟨"p1", false, "false"⟩]⟩, ⟨[⟨"p2", true, "true"⟩]⟩],
          panels := [⟨"p1", "none", "true"⟩, ⟨"p2", "block", "false"⟩] } 0 0).groups[g']? =
      ({ groups := [⟨[⟨"p1", false, "false"⟩]⟩, ⟨[⟨"p2", true, "true"⟩]⟩],
          panels := [⟨"p1", "none", "true"⟩, ⟨"p2", "block", "false"⟩] } :
        UnifiedTheme.TabDom).groups[g']?) ∧
    (∀ k (p : UnifiedTheme.Panel),
      ([⟨"p1", "none", "true"⟩, ⟨"p2", "block", "false"⟩] :
        List UnifiedTheme.Panel)[k]? = some p →
      (UnifiedTheme.switchTab
        { groups := [⟨[⟨"p1", false, "false"⟩]⟩, ⟨[⟨"p2", true, "true"⟩]⟩],
          panels := [⟨"p1", "none", "true"⟩, ⟨"p2", "block", "false"⟩] } 0 0).panels[k]? = some (
        if UnifiedTheme.findPanelIdx
            [⟨"p1", "none", "true"⟩, ⟨"p2", "block", "false"⟩] "p1" = some k then
          { p with display := "block", ariaHidden := "false" }
        else { p with display := "none", ariaHidden := "true" })) :=
  switchTab_spec
    { groups := [⟨[⟨"p1", false, "false"⟩]⟩, ⟨[⟨"p2", true, "true"⟩]⟩],
      panels := [⟨"p1", "none", "true"⟩, ⟨"p2", "block", "false"⟩] } 0 0
    ⟨[⟨"p1", false, "false"⟩]⟩ ⟨"p1", false, "false"⟩ rfl rfl

namespace UnifiedTheme

/-- A collapsible element as `toggleCollapse` sees it: inline `display`
and `height` styles (the empty string models a cleared inline property),
the `collapsed`/`collapsing` classes, and the layout `scrollHeight`. -/
structure CollapseElem where
  display : String
  height : String
  collapsed : Bool
  collapsing : Bool
  scrollHeight : Nat
deriving DecidableEq

/-- The deferred 300 ms cleanup scheduled by `toggleCollapse`
(theme-manager.js lines 173-176 and 186-191). -/
inductive CollapsePending where
  | expandCleanup
  | collapseCleanup
deriving DecidableEq

/-- What each scheduled cleanup does when its timer fires. -/
def applyCollapsePending : CollapsePending → CollapseElem → CollapseElem
  | .expandCleanup, e => { e with collapsing := false, height := "" }
  | .collapseCleanup, e =>
      { e with display := "none", collapsing := false, collapsed := true, height := "" }

/-- `toggleCollapse(element)` (lines 159-193): the synchronous style/class
mutations, together with the delay and kind of the scheduled cleanup.
Expanding sets `display:block`, drops `collapsed`, adds `collapsing` and
pins the height to `scrollHeight`px; collapsing pins the height then sets
it to `0` and adds `collapsing`. -/
def toggleCollapse (element : CollapseElem) : CollapseElem × (Nat × CollapsePending) :=
  let isCollapsed := element.display == "none" || element.collapsed
  if isCollapsed then
    let expanded := { element with
      display := "block"
      collapsed := false
      collapsing := true
      height := toString element.scrollHeight ++ "px" }
    (expanded, (300, .expandCleanup))
  else
    let shrunk := { element with height := "0", collapsing := true }
    (shrunk, (300, .collapseCleanup))

/-- `document.getElementById` over a page modelled as an association list
of element ids: the first element with the given id, if any. -/
def getCollapseTarget (page : List (String × CollapseElem)) (targetId : String) :
    Option CollapseElem :=
  (page.find? fun e => e.1 = targetId).map (·.2)

/-- Replace the first element with the given id (the one
`getElementById` resolved to). -/
def setCollapseTarget : List (String × CollapseElem) → String → CollapseElem →
    List (String × CollapseElem)
  | [], _, _ => []
  | (i, e) :: rest, targetId, x =>
      if i = targetId then (i, x) :: rest else (i, e) :: setCollapseTarget rest targetId x

/-- The delegated collapse-toggle click handler (lines 142-153): read the
`data-collapse-toggle` value, resolve it with `getElementById`, and only
when an element is found run `toggleCollapse` on it.  Returns the page
and the list of timers the click scheduled. -/
def handleCollapseClick (page : List (String × CollapseElem)) (targetId : String) :
    List (String × CollapseElem) × List (Nat × CollapsePending) :=
  match getCollapseTarget page targetId with
  | none => (page, [])
  | some e =>
      let r := toggleCollapse e
      (setCollapseTarget page targetId r.1, [r.2])

theorem findPanelIdx_hideAll (ps : List Panel) (targetId : String) :
    findPanelIdx (hideAllPanels ps) targetId = findPanelIdx ps targetId := by
  induction ps with
  | nil => rfl
  | cons q qs ih =>
      by_cases h : q.id = targetId
      · simp [hideAllPanels, findPanelIdx, h]
      · simp only [hideAllPanels, List.map_cons, findPanelIdx, h, if_false]
        rw [show List.map (fun p => { p with display := "none", ariaHidden := "true" }) qs =
          hideAllPanels qs from rfl, ih]

theorem showPanel_no_match (ps : List Panel) (targetId : String)
    (h : findPanelIdx ps targetId = none) : showPanel ps targetId = ps := by
  induction ps with
  | nil => rfl
  | cons q qs ih =>
      by_cases hq : q.id = targetId
      · simp [findPanelIdx, hq] at h
      · simp only [findPanelIdx, hq, if_false, Option.map_eq_none'] at h
        simp [showPanel, hq, ih h]

end UnifiedTheme

/-- C9 counterexample: a tab switch whose `data-tab` value resolves to no
panel is NOT a no-op.  In a document with one group holding an inactive
tab targeting the unknown id `"nope"` and an active tab, plus one visible
panel, clicking the first tab still activates it, deactivates the other,
and hides the panel: the DOM state changes. -/
theorem switchTab_unknown_panel_counterexample :
    UnifiedTheme.switchTab
        { groups := [⟨[⟨"nope", false, "false"⟩, ⟨"p1", true, "true"⟩]⟩],
          panels := [⟨"p1", "block", "false"⟩] } 0 0 =
      { groups := [⟨[⟨"nope", true, "true"⟩, ⟨"p1", false, "false"⟩]⟩],
        panels := [⟨"p1", "none", "true"⟩] } ∧
    ({ groups := [⟨[⟨"nope", true, "true"⟩, ⟨"p1", false, "false"⟩]⟩],
       panels := [⟨"p1", "none", "true"⟩] } : UnifiedTheme.TabDom) ≠
      { groups := [⟨[⟨"nope", false, "false"⟩, ⟨"p1", true, "true"⟩]⟩],
        panels := [⟨"p1", "block", "false"⟩] } := by
  constructor
  · rfl
  · decide

/-- C9 amended: unresolved DOM targets surface no error and (a) a collapse
toggle whose `data-collapse-toggle` id resolves to no element leaves the
page untouched and schedules nothing, (b) a `[data-tab]` click with no
enclosing `[data-tab-group]` is a complete no-op; but (c) a tab switch
whose `data-tab` value matches no panel id still deactivates/activates
the tabs of the group and hides every `[data-tab-panel]` — only the
show-target step is skipped. -/
theorem unresolved_targets_spec (page : List (String × UnifiedTheme.CollapseElem))
    (targetId : String) (dom dom' : UnifiedTheme.TabDom) (gi ti : Nat)
    (g : UnifiedTheme.TabGroup) (tab : UnifiedTheme.Tab)
    (hmiss : UnifiedTheme.getCollapseTarget page targetId = none)
    (hg : dom.groups[gi]? = some g) (ht : g.tabs[ti]? = some tab)
    (hpanel : UnifiedTheme.findPanelIdx dom.panels tab.dataTab = none) :
    UnifiedTheme.handleCollapseClick page targetId = (page, []) ∧
    UnifiedTheme.switchTabNoGroup dom' = dom' ∧
    (UnifiedTheme.switchTab dom gi ti).panels = UnifiedTheme.hideAllPanels dom.panels ∧
    (UnifiedTheme.switchTab dom gi ti).groups =
      dom.groups.set gi ⟨(UnifiedTheme.deactivateTabs g.tabs).set ti
        { tab with active := true, ariaSelected := "true" }⟩ := by
  refine ⟨?_, rfl, ?_, ?_⟩
  · unfold UnifiedTheme.handleCollapseClick
    rw [hmiss]
  · simp only [UnifiedTheme.switchTab, hg, ht]
    exact UnifiedTheme.showPanel_no_match _ _
      (by rw [UnifiedTheme.findPanelIdx_hideAll]; exact hpanel)
  · simp only [UnifiedTheme.switchTab, hg, ht]

/-- Witness for C9 amended at a concrete page and document. -/
theorem unresolved_targets_spec_witness :
    UnifiedTheme.handleCollapseClick
      [("body", ⟨"", "", false, false, 40⟩)] "missing" =
      ([("body", ⟨"", "", false, false, 40⟩)], []) ∧
    UnifiedTheme.switchTabNoGroup
      { groups := [], panels := [⟨"p", "block", "false"⟩] } =
      { groups := [], panels := [⟨"p", "block", "false"⟩] } ∧
    (UnifiedTheme.switchTab
        { groups := [⟨[⟨"nope", false, "false"⟩]⟩],
          panels := [⟨"p1", "block", "false"⟩] } 0 0).panels =
      UnifiedTheme.hideAllPanels [⟨"p1", "block", "false"⟩] ∧
    (UnifiedTheme.switchTab
        { groups := [⟨[⟨"nope", false, "false"⟩]⟩],
          panels := [⟨"p1", "block", "false"⟩] } 0 0).groups =
      ([⟨[⟨"nope", false, "false"⟩]⟩] : List UnifiedTheme.TabGroup).set 0
        ⟨(UnifiedTheme.deactivateTabs [⟨"nope", false, "false"⟩]).set 0
          { (⟨"nope", false, "false"⟩ : UnifiedTheme.Tab) with
              active := true, ariaSelected := "true" }⟩ :=
  unresolved_targets_spec [("body", ⟨"", "", false, false, 40⟩)] "missing"
    { groups := [⟨[⟨"nope", false, "false"⟩]⟩], panels := [⟨"p1", "block", "false"⟩] }
    { groups := [], panels := [⟨"p", "block", "false"⟩] } 0 0
    ⟨[⟨"nope", false, "false"⟩]⟩ ⟨"nope", false, "false"⟩
    rfl rfl rfl rfl

namespace UnifiedTheme

/-- Caller-supplied `notify` options; a `none` field was absent from the
options object, so the default survives the `{ ...defaults, ...options }`
spread. -/
structure NotifyOptions where
  type : Option String := none
  duration : Option Int := none
  position : Option String := none
  dismissible : Option Bool := none

/-- The resolved notification config (lines 310-317). -/
structure NotifyConfig where
  type : String
  duration : Int
  position : String
  dismissible : Bool
deriving DecidableEq

/-- `const config = { ...defaults, ...options }`: each option falls back
to `type:'info'`, `duration:5000`, `position:'top-right'`,
`dismissible:true`. -/
def resolveConfig (options : NotifyOptions) : NotifyConfig :=
  { type := options.type.getD "info"
    duration := options.duration.getD 5000
    position := options.position.getD "top-right"
    dismissible := options.dismissible.getD true }

/-- The notification DOM node `notify` builds (lines 320-337): classes
`alert`, `alert-<type>`, `notification`, `notification-<position>`, the
message span, and a close button when dismissible. -/
structure NotificationNode where
  classes : List String
  message : String
  hasCloseButton : Bool
deriving DecidableEq

def buildNotification (message : String) (config : NotifyConfig) : NotificationNode :=
  { classes := ["alert", "alert-" ++ config.type, "notification",
      "notification-" ++ config.position]
    message := message
    hasCloseButton := config.dismissible }

/-- A notification container element appended to `document.body`, with the
notifications placed inside it. -/
structure Container where
  id : String
  className : String
  children : List NotificationNode
deriving DecidableEq

/-- `getNotificationContainer(position)` (lines 359-371): resolve
`notifications-<position>` by id; when absent, create the container,
append it to the body and return it. -/
def getNotificationContainer (page : List Container) (position : String) :
    Container × List Container :=
  let containerId := "notifications-" ++ position
  match page.find? (fun c => c.id = containerId) with
  | some container => (container, page)
  | none =>
      let container : Container :=
        { id := containerId
          className := "notifications notifications-" ++ position
          children := [] }
      (container, page ++ [container])

/-- `container.appendChild(notification)`: the first container with the
given id receives the new child. -/
def appendToContainer : List Container → String → NotificationNode → List Container
  | [], _, _ => []
  | c :: rest, containerId, n =>
      if c.id = containerId then { c with children := c.children ++ [n] } :: rest
      else c :: appendToContainer rest containerId n

/-- Lines 344-350: the auto-dismiss timer is scheduled only when
`config.duration > 0`, with delay `config.duration`. -/
def notifyDismissDelay (config : NotifyConfig) : Option Int :=
  if config.duration > 0 then some config.duration else none

/-- When the auto-dismiss timer fires it calls `dismissAlert`, which
removes the node after a further 300 ms exit animation (lines 128-136);
`none` means the node is never auto-removed. -/
def notifyRemovalTime (config : NotifyConfig) : Option Int :=
  (notifyDismissDelay config).map (· + 300)

/-- `notify(message, options)` (lines 309-353): resolve the config, build
the node, fetch-or-create the container for the position, append the
node, and schedule the auto-dismiss timer.  Returns the node, the updated
page, and the absolute removal time (if any). -/
def notify (message : String) (options : NotifyOptions) (page : List Container) :
    NotificationNode × List Container × Option Int :=
  let config := resolveConfig options
  let notification := buildNotification message config
  let found := getNotificationContainer page config.position
  let page' := appendToContainer found.2 ("notifications-" ++ config.position) notification
  (notification, page', notifyRemovalTime config)

theorem find?_append_none {α : Type} (p : α → Bool) (l1 l2 : List α)
    (h : l1.find? p = none) : (l1 ++ l2).find? p = l2.find? p := by
  induction l1 with
  | nil => rfl
  | cons a rest ih =>
      by_cases ha : p a
      · simp [List.find?_cons, ha] at h
      · simp only [List.find?_cons, ha] at h
        simp [List.find?_cons, ha, ih h]

end UnifiedTheme

/-- C6 counterexample: a `notify` call whose resolved duration is the
nonzero value `-1` is never auto-dismissed — no dismissal timer is
scheduled (line 344 tests `config.duration > 0`, not `!== 0`), so the
claim "nonzero duration removes the node" fails. -/
theorem notify_nonzero_duration_counterexample :
    (UnifiedTheme.resolveConfig { duration := some (-1) }).duration ≠ 0 ∧
    (UnifiedTheme.notify "hello" { duration := some (-1) } []).2.2 = none := by
  constructor
  · decide
  · rfl

/-- C6 amended: for every `notify(message, options)` call, when the
resolved duration is zero OR negative no dismissal timer is scheduled and
the node is never auto-removed; when it is positive the node is removed
at `duration + 300` ms (the timer fires at `duration`, then the 300 ms
`dismissAlert` exit animation runs), i.e. after approximately the
duration. -/
theorem notify_auto_dismiss (message : String) (options : UnifiedTheme.NotifyOptions)
    (page : List UnifiedTheme.Container) :
    ((UnifiedTheme.resolveConfig options).duration ≤ 0 →
      (UnifiedTheme.notify message options page).2.2 = none) ∧
    (0 < (UnifiedTheme.resolveConfig options).duration →
      ∃ t, (UnifiedTheme.notify message options page).2.2 = some t ∧
        (UnifiedTheme.resolveConfig options).duration ≤ t ∧
        t ≤ (UnifiedTheme.resolveConfig options).duration + 300) := by
  constructor
  · intro h
    simp only [UnifiedTheme.notify, UnifiedTheme.notifyRemovalTime,
      UnifiedTheme.notifyDismissDelay]
    rw [if_neg (by omega)]
    rfl
  · intro h
    refine ⟨(UnifiedTheme.resolveConfig options).duration + 300, ?_, by omega, by omega⟩
    simp only [UnifiedTheme.notify, UnifiedTheme.notifyRemovalTime,
      UnifiedTheme.notifyDismissDelay]
    rw [if_pos h]
    rfl

/-- Witness for C6 amended: duration 0 schedules nothing; the default
duration 5000 removes the node at 5300 ms. -/
theorem notify_auto_dismiss_witness :
    (UnifiedTheme.notify "hello" { duration := some 0 } []).2.2 = none ∧
    (∃ t, (UnifiedTheme.notify "hello" {} []).2.2 = some t ∧
      (UnifiedTheme.resolveConfig {}).duration ≤ t ∧
      t ≤ (UnifiedTheme.resolveConfig {}).duration + 300) :=
  ⟨(notify_auto_dismiss "hello" { duration := some 0 } []).1 (by decide),
    (notify_auto_dismiss "hello" {} []).2 (by decide)⟩

/-- C10: `getNotificationContainer` is idempotent: when a container with
id `notifications-<position>` exists it is returned with the page
unchanged, and calling it again on the page it produced returns the same
container and the same page, so repeated `notify` calls with one position
share a single container. -/
theorem getNotificationContainer_idempotent (page : List UnifiedTheme.Container)
    (position : String) :
    (UnifiedTheme.getNotificationContainer
        (UnifiedTheme.getNotificationContainer page position).2 position =
      UnifiedTheme.getNotificationContainer page position) ∧
    (∀ c, page.find? (fun x => x.id = "notifications-" ++ position) = some c →
      UnifiedTheme.getNotificationContainer page position = (c, page)) := by
  constructor
  · cases hf : page.find? (fun x => x.id = "notifications-" ++ position) with
    | some c =>
        have h1 : UnifiedTheme.getNotificationContainer page position = (c, page) := by
          simp only [UnifiedTheme.getNotificationContainer, hf]
        rw [h1]
        simp only [UnifiedTheme.getNotificationContainer, hf]
    | none =>
        have h1 : UnifiedTheme.getNotificationContainer page position =
            (⟨"notifications-" ++ position, "notifications notifications-" ++ position, []⟩,
              page ++ [⟨"notifications-" ++ position,
                "notifications notifications-" ++ position, []⟩]) := by
          simp only [UnifiedTheme.getNotificationContainer, hf]
        rw [h1]
        have h2 : (page ++ [(⟨"notifications-" ++ position,
            "notifications notifications-" ++ position, []⟩ : UnifiedTheme.Container)]).find?
              (fun x => x.id = "notifications-" ++ position) =
            some ⟨"notifications-" ++ position,
              "notifications notifications-" ++ position, []⟩ := by
          rw [UnifiedTheme.find?_append_none _ _ _ hf]
          simp [List.find?_cons]
        simp only [UnifiedTheme.getNotificationContainer, h2]
  · intro c hc
    simp only [UnifiedTheme.getNotificationContainer, hc]

/-- Witness for C10 at a concrete page already holding the container. -/
theorem getNotificationContainer_idempotent_witness :
    UnifiedTheme.getNotificationContainer
      [⟨"notifications-top-right", "notifications notifications-top-right", []⟩] "top-right" =
      (⟨"notifications-top-right", "notifications notifications-top-right", []⟩,
        [⟨"notifications-top-right", "notifications notifications-top-right", []⟩]) :=
  (getNotificationContainer_idempotent
    [⟨"notifications-top-right", "notifications notifications-top-right", []⟩] "top-right").2
    ⟨"notifications-top-right", "notifications notifications-top-right", []⟩ (by simp)

namespace AnimationUtils

/-- The inline style properties the animation helpers assign; `none`
models an inline property that is absent or has been cleared (assigning
the empty string in the source). -/
structure ElemStyle where
  opacity : Option String
  display : Option String
  transition : Option String
  transform : Option String
  height : Option String
  overflow : Option String
deriving DecidableEq

/-- A target element: its inline style plus the layout `scrollHeight`
read by the slide helpers. -/
structure Elem where
  style : ElemStyle
  scrollHeight : Nat
deriving DecidableEq

/-- When (and whether) a method runs its completion callback: never,
synchronously within the call, or via `setTimeout` after a delay. -/
inductive CallbackTiming where
  | never
  | immediate
  | after (delay : Int)
deriving DecidableEq

/-- The deferred style mutation each fire-and-forget timer performs. -/
inductive PendingAct where
  | fadeOutEnd
  | slideDownEnd
  | slideUpEnd
  | scaleOutEnd
deriving DecidableEq

/-- The style change applied when a scheduled timer fires (the bodies of
the `setTimeout` callbacks in animations.js). -/
def applyPendingAct : PendingAct → ElemStyle → ElemStyle
  | .fadeOutEnd, s => { s with display := some "none" }
  | .slideDownEnd, s => { s with height := none, overflow := none }
  | .slideUpEnd, s => { s with display := some "none", height := none, overflow := none }
  | .scaleOutEnd, s => { s with display := some "none" }

/-- `this.defaultDuration` (animations.js line 8). -/
def defaultDuration : Int := 300

/-- `this.defaultEasing` (line 9). -/
def defaultEasing : String := "ease-in-out"

/-- Result of one animation call: the element's style at the end of the
synchronous part, console warnings, Web-Animations-API invocations
(`element.animate`), the callback timing, and the scheduled timers. -/
structure AnimOutcome where
  style : ElemStyle
  warnings : List String
  webAnims : List String
  callback : CallbackTiming
  pending : List (Int × PendingAct)
deriving DecidableEq

/-- `fadeIn` (lines 18-31). -/
def fadeIn (st : ElemStyle) (duration : Int) (hasCallback : Bool) : AnimOutcome :=
  let s := { st with opacity := some "0" }
  let s := { s with display := some "block" }
  let s := { s with
    transition := some ("opacity " ++ toString duration ++ "ms " ++ defaultEasing) }
  let s := { s with opacity := some "1" }
  { style := s, warnings := [], webAnims := []
    callback := if hasCallback then .after duration else .never
    pending := [] }

/-- `fadeOut` (lines 39-49); the timer also hides the element. -/
def fadeOut (st : ElemStyle) (duration : Int) (hasCallback : Bool) : AnimOutcome :=
  let s := { st with opacity := some "1" }
  let s := { s with
    transition := some ("opacity " ++ toString duration ++ "ms " ++ defaultEasing) }
  let s := { s with opacity := some "0" }
  { style := s, warnings := [], webAnims := []
    callback := if hasCallback then .after duration else .never
    pending := [(duration, .fadeOutEnd)] }

/-- `slideDown` (lines 57-75). -/
def slideDown (el : Elem) (duration : Int) (hasCallback : Bool) : AnimOutcome :=
  let s := { el.style with height := some "0" }
  let s := { s with overflow := some "hidden" }
  let s := { s with display := some "block" }
  let s := { s with
    transition := some ("height " ++ toString duration ++ "ms " ++ defaultEasing) }
  let targetHeight := el.scrollHeight
  let s := { s with height := some (toString targetHeight ++ "px") }
  { style := s, warnings := [], webAnims := []
    callback := if hasCallback then .after duration else .never
    pending := [(duration, .slideDownEnd)] }

/-- `slideUp` (lines 83-99). -/
def slideUp (el : Elem) (duration : Int) (hasCallback : Bool) : AnimOutcome :=
  let s := { el.style with height := some (toString el.scrollHeight ++ "px") }
  let s := { s with overflow := some "hidden" }
  let s := { s with
    transition := some ("height " ++ toString duration ++ "ms " ++ defaultEasing) }
  let s := { s with height := some "0" }
  { style := s, warnings := [], webAnims := []
    callback := if hasCallback then .after duration else .never
    pending := [(duration, .slideUpEnd)] }

/-- `scaleIn` (lines 107-122). -/
def scaleIn (st : ElemStyle) (duration : Int) (hasCallback : Bool) : AnimOutcome :=
  let s := { st with transform := some "scale(0)" }
  let s := { s with opacity := some "0" }
  let s := { s with display := some "block" }
  let s := { s with
    transition := some ("transform " ++ toString duration ++ "ms " ++ defaultEasing ++
      ", opacity " ++ toString duration ++ "ms " ++ defaultEasing) }
  let s := { s with transform := some "scale(1)" }
  let s := { s with opacity := some "1" }
  { style := s, warnings := [], webAnims := []
    callback := if hasCallback then .after duration else .never
    pending := [] }

/-- `scaleOut` (lines 130-142). -/
def scaleOut (st : ElemStyle) (duration : Int) (hasCallback : Bool) : AnimOutcome :=
  let s := { st with transform := some "scale(1)" }
  let s := { s with opacity := some "1" }
  let s := { s with
    transition := some ("transform " ++ toString duration ++ "ms " ++ defaultEasing ++
      ", opacity " ++ toString duration ++ "ms " ++ defaultEasing) }
  let s := { s with transform := some "scale(0)" }
  let s := { s with opacity := some "0" }
  { style := s, warnings := [], webAnims := []
    callback := if hasCallback then .after duration else .never
    pending := [(duration, .scaleOutEnd)] }

/-- `animate(element, animation, duration, callback)` (lines 305-337):
dispatch on the animation name; `bounce`/`shake` go through the
Web Animations API and invoke the callback synchronously; an unrecognised
name logs `Animation "<name>" not found` and invokes the callback
synchronously, touching neither styles nor timers. -/
def animate (el : Elem) (animation : String) (duration : Int) (hasCallback : Bool) :
    AnimOutcome :=
  if animation = "fadeIn" then fadeIn el.style duration hasCallback
  else if animation = "fadeOut" then fadeOut el.style duration hasCallback
  else if animation = "slideDown" then slideDown el duration hasCallback
  else if animation = "slideUp" then slideUp el duration hasCallback
  else if animation = "scaleIn" then scaleIn el.style duration hasCallback
  else if animation = "scaleOut" then scaleOut el.style duration hasCallback
  else if animation = "bounce" then
    { style := el.style, warnings := [], webAnims := ["bounce"]
      callback := if hasCallback then .immediate else .never
      pending := [] }
  else if animation = "shake" then
    { style := el.style, warnings := [], webAnims := ["shake"]
      callback := if hasCallback then .immediate else .never
      pending := [] }
  else
    { style := el.style
      warnings := ["Animation \"" ++ animation ++ "\" not found"]
      webAnims := []
      callback := if hasCallback then .immediate else .never
      pending := [] }

/-- The ease-out cubic easing of `animateCounter` (line 251). -/
def easeOutCubic (progress : ℚ) : ℚ :=
  1 - (1 - progress) ^ 3

/-- One frame of `animateCounter` (lines 246-255): progress is the
elapsed time over the duration, clamped at 1, and the displayed value is
`Math.floor(start + difference * easeOut)`. -/
def counterValue (start endVal : Int) (duration elapsed : ℚ) : Int :=
  let difference : Int := endVal - start
  let progress := min (elapsed / duration) 1
  let easeOut := easeOutCubic progress
  ⌊(start : ℚ) + (difference : ℚ) * easeOut⌋

/-- The text content after the frame at the given elapsed time
(lines 246-261): the floored eased interpolation while progress is below
1, and exactly the end value once progress reaches 1. -/
def counterDisplay (start endVal : Int) (duration elapsed : ℚ) : Int :=
  let progress := min (elapsed / duration) 1
  if progress < 1 then counterValue start endVal duration elapsed else endVal

end AnimationUtils

/-- C8: for every `animate` call whose animation name is not one of the
recognised cases, a console warning `Animation "<name>" not found` is
produced, the callback (when provided) is invoked immediately and
synchronously, and the element's style is untouched: no transition is
applied, no Web-Animations call is made, no timer is scheduled. -/
theorem animate_unknown_name (el : AnimationUtils.Elem) (animation : String)
    (duration : Int) (hasCallback : Bool)
    (h : animation ∉ ["fadeIn", "fadeOut", "slideDown", "slideUp",
      "scaleIn", "scaleOut", "bounce", "shake"]) :
    AnimationUtils.animate el animation duration hasCallback =
      { style := el.style
        warnings := ["Animation \"" ++ animation ++ "\" not found"]
        webAnims := []
        callback := if hasCallback then .immediate else .never
        pending := [] } := by
  simp only [List.mem_cons, List.not_mem_nil, or_false, not_or] at h
  obtain ⟨h1, h2, h3, h4, h5, h6, h7, h8⟩ := h
  simp [AnimationUtils.animate, h1, h2, h3, h4, h5, h6, h7, h8]

/-- Witness for C8 at the unknown name `"wobble"`. -/
theorem animate_unknown_name_witness :
    AnimationUtils.animate ⟨⟨none, none, none, none, none, none⟩, 40⟩ "wobble" 300 true =
      { style := ⟨none, none, none, none, none, none⟩
        warnings := ["Animation \"wobble\" not found"]
        webAnims := []
        callback := .immediate
        pending := [] } :=
  animate_unknown_name ⟨⟨none, none, none, none, none, none⟩, 40⟩ "wobble" 300 true
    (by decide)

theorem counterValue_mono (e1 e2 : ℚ) (h12 : e1 ≤ e2) :
    AnimationUtils.counterValue 0 100 1000 e1 ≤ AnimationUtils.counterValue 0 100 1000 e2 := by
  unfold AnimationUtils.counterValue AnimationUtils.easeOutCubic
  have hp12 : min (e1 / 1000) 1 ≤ min (e2 / 1000) 1 :=
    min_le_min ((div_le_div_iff_of_pos_right (by norm_num)).mpr h12) le_rfl
  have hp2le : min (e2 / 1000) 1 ≤ 1 := min_le_right _ _
  have hcube : (1 - min (e2 / 1000) 1) ^ 3 ≤ (1 - min (e1 / 1000) 1) ^ 3 :=
    pow_le_pow_left₀ (by linarith) (by linarith) 3
  apply Int.floor_le_floor
  push_cast
  linarith

theorem counterValue_le_100 (x : ℚ) :
    AnimationUtils.counterValue 0 100 1000 x ≤ 100 := by
  unfold AnimationUtils.counterValue AnimationUtils.easeOutCubic
  have hxle : min (x / 1000) 1 ≤ 1 := min_le_right _ _
  have hc : (0 : ℚ) ≤ (1 - min (x / 1000) 1) ^ 3 :=
    pow_nonneg (by linarith) 3
  have hle : (0 : ℚ) + ((100 - 0 : Int) : ℚ) * (1 - (1 - min (x / 1000) 1) ^ 3) ≤ 100 := by
    push_cast
    linarith
  calc ⌊(0 : ℚ) + ((100 - 0 : Int) : ℚ) * (1 - (1 - min (x / 1000) 1) ^ 3)⌋
      ≤ ⌊(100 : ℚ)⌋ := Int.floor_le_floor hle
    _ = 100 := by norm_num

/-- C7: for `animateCounter(el, 0, 100, 1000)` the displayed value is
monotonically non-decreasing in the elapsed time of the frame-callback
loop — each frame shows the floor of the eased (ease-out cubic)
interpolation between the bounds while progress is below 1 — and once
progress reaches 1 (elapsed ≥ duration) the animation completes with text
content exactly `100`. -/
theorem animateCounter_monotone_completes (e1 e2 e : ℚ)
    (_h0 : 0 ≤ e1) (h12 : e1 ≤ e2) (hend : 1000 ≤ e) :
    AnimationUtils.counterDisplay 0 100 1000 e1 ≤
      AnimationUtils.counterDisplay 0 100 1000 e2 ∧
    AnimationUtils.counterDisplay 0 100 1000 e = 100 := by
  have hp12 : min (e1 / 1000) 1 ≤ min (e2 / 1000) 1 :=
    min_le_min ((div_le_div_iff_of_pos_right (by norm_num)).mpr h12) le_rfl
  constructor
  · simp only [AnimationUtils.counterDisplay]
    by_cases hc2 : min (e2 / 1000) 1 < 1
    · have hc1 : min (e1 / 1000) 1 < 1 := lt_of_le_of_lt hp12 hc2
      rw [if_pos hc1, if_pos hc2]
      exact counterValue_mono e1 e2 h12
    · rw [if_neg hc2]
      by_cases hc1 : min (e1 / 1000) 1 < 1
      · rw [if_pos hc1]
        exact counterValue_le_100 e1
      · rw [if_neg hc1]
  · have hp : min (e / 1000) 1 = 1 :=
      min_eq_right ((one_le_div (by norm_num)).mpr hend)
    simp only [AnimationUtils.counterDisplay, hp]
    norm_num

/-- Witness for C7: frames at 0 ms and 500 ms are ordered, and the frame
at 1000 ms displays 100. -/
theorem animateCounter_monotone_completes_witness :
    AnimationUtils.counterDisplay 0 100 1000 0 ≤
      AnimationUtils.counterDisplay 0 100 1000 500 ∧
    AnimationUtils.counterDisplay 0 100 1000 1000 = 100 :=
  animateCounter_monotone_completes 0 500 1000 (by norm_num) (by norm_num) (by norm_num)
